import Mathlib

/-!
Shallow embedding of the ARIMA model-selection kernel of the repository.

The repository's only algorithmic kernel is a brute-force grid search over
ARIMA (p, d, q) orders selecting the fit with the lowest AIC.  Three loops
implement it:

* `encontrar_mejor_arima` (arima_basico_tutorial.py): nested loops
  `for p in range(max_p+1): for d in range(max_d+1): for q in range(max_q+1)`,
  keeping `mejor_aic` (initially `float('inf')`), `mejor_orden`,
  `mejor_modelo`, and a counter `combinaciones_probadas`; a candidate
  replaces the best exactly when `fitted.aic < mejor_aic`; per-candidate
  exceptions are caught and the loop continues; if no model was ever kept
  the function returns `(None, None, None)`.
* `arima_con_statsmodels` (arima_simple_tutorial.py): the same loop body
  over the literal list `[(1,0,0), (2,0,0), (1,0,1), (2,0,1), (1,1,1)]`.
* `arima_con_datos_nasa` (arima_nasa_predicciones.py): the same loop body
  over a hard-coded list `configuraciones`, run on the 85% training prefix
  of the series; afterwards the model is re-fitted on the full series and
  that re-fitted model is returned together with the AIC of the
  training-prefix fit.

The external fitting routine (statsmodels `ARIMA(...).fit()`) is modelled
as an abstract function `Fit : Orden → Option ℚ` giving, for each candidate
order, either the AIC of a successful fit or `none` when the fit raises.
AIC values (IEEE floats in the source) are idealised as rationals; the
state field `mejorAic : Option ℚ` uses `none` for the initial
`float('inf')`.
-/

namespace Hackaton

/-- A candidate ARIMA order: the `(p, d, q)` triple of the source. -/
structure Orden where
  p : ℕ
  d : ℕ
  q : ℕ
deriving DecidableEq, Repr

/-- The external fitting routine, abstracted: for a candidate order, the
AIC of a successful fit, or `none` when `ARIMA(serie, order=(p,d,q)).fit()`
raises an exception. -/
def Fit : Type := Orden → Option ℚ

/-- Loop state of the grid search: `mejor_aic` (with `none` standing for
the initial `float('inf')`), `mejor_orden`, and the counter
`combinaciones_probadas`. -/
structure SearchState where
  mejorAic : Option ℚ
  mejorOrden : Option Orden
  probadas : ℕ
deriving DecidableEq, Repr

/-- The comparison `fitted.aic < mejor_aic` of the source, where
`mejor_aic` may still be the initial `float('inf')` (here `none`). -/
def ltMejor (aic : ℚ) : Option ℚ → Bool
  | none => true
  | some b => decide (aic < b)

/-- One iteration of the selection loop body: increment the counter, try
to fit the candidate, and keep it exactly when its AIC is strictly below
the current best; a failed fit is caught and changes nothing else. -/
def probarCandidato (fit : Fit) (st : SearchState) (o : Orden) : SearchState :=
  match fit o with
  | none => { st with probadas := st.probadas + 1 }
  | some aic =>
      if ltMejor aic st.mejorAic then
        { mejorAic := some aic, mejorOrden := some o, probadas := st.probadas + 1 }
      else
        { st with probadas := st.probadas + 1 }

/-- State before the loop: `mejor_aic = float('inf')`, `mejor_orden = None`,
`combinaciones_probadas = 0`. -/
def estadoInicial : SearchState :=
  { mejorAic := none, mejorOrden := none, probadas := 0 }

/-- The selection loop run over a candidate list from a given state. -/
def buscarDesde (fit : Fit) (cands : List Orden) (st : SearchState) : SearchState :=
  cands.foldl (probarCandidato fit) st

/-- The selection loop run over a candidate list from the initial state. -/
def buscar (fit : Fit) (cands : List Orden) : SearchState :=
  buscarDesde fit cands estadoInicial

/-- The value returned after the loop: `(mejor_orden, mejor_aic, modelo)`
when a model was kept, `(None, None, None)` otherwise.  `none` models the
`(None, None, None)` / `return None` outcome. -/
def resultado (st : SearchState) : Option (Orden × ℚ) :=
  match st.mejorOrden, st.mejorAic with
  | some o, some a => some (o, a)
  | _, _ => none

/-- The whole selection procedure over an explicit candidate list. -/
def seleccionar (fit : Fit) (cands : List Orden) : Option (Orden × ℚ) :=
  resultado (buscar fit cands)

/-- The candidate grid enumerated by the nested loops of
`encontrar_mejor_arima`: `p` ascending in `range(max_p+1)`, then `d` in
`range(max_d+1)`, then `q` in `range(max_q+1)`. -/
def grid (max_p max_d max_q : ℕ) : List Orden :=
  (List.range (max_p + 1)).flatMap fun p =>
    (List.range (max_d + 1)).flatMap fun d =>
      (List.range (max_q + 1)).map fun q => ⟨p, d, q⟩

/-- `encontrar_mejor_arima` of arima_basico_tutorial.py: grid search over
the full Cartesian grid, returning `(mejor_orden, mejor_aic, mejor_modelo)`
or `(None, None, None)`. -/
def encontrar_mejor_arima (fit : Fit) (max_p max_d max_q : ℕ) : Option (Orden × ℚ) :=
  seleccionar fit (grid max_p max_d max_q)

/-- The literal candidate list of `arima_con_statsmodels`
(arima_simple_tutorial.py, line 127). -/
def configuraciones_simple : List Orden :=
  [⟨1, 0, 0⟩, ⟨2, 0, 0⟩, ⟨1, 0, 1⟩, ⟨2, 0, 1⟩, ⟨1, 1, 1⟩]

/-- The selection loop of `arima_con_statsmodels` (arima_simple_tutorial.py,
lines 127-149). -/
def arima_con_statsmodels (fit : Fit) : Option (Orden × ℚ) :=
  seleccionar fit configuraciones_simple

/-- The hard-coded candidate list `configuraciones` of
`arima_con_datos_nasa` (arima_nasa_predicciones.py, lines 160-164), in its
literal order. -/
def configuraciones (d_param : ℕ) : List Orden :=
  [⟨1, d_param, 1⟩, ⟨2, d_param, 1⟩, ⟨1, d_param, 2⟩,
   ⟨2, d_param, 2⟩, ⟨3, d_param, 1⟩, ⟨1, d_param, 3⟩,
   ⟨3, d_param, 2⟩, ⟨2, d_param, 3⟩]

/-- The selection loop of `arima_con_datos_nasa` (arima_nasa_predicciones.py,
lines 155-185) over the hard-coded `configuraciones` list. -/
def seleccion_nasa (fit : Fit) (d_param : ℕ) : Option (Orden × ℚ) :=
  seleccionar fit (configuraciones d_param)

/-- The fitting routine, abstracted over the series it receives: for a
series and a candidate order, the AIC of a successful
`ARIMA(serie, order).fit()`, or `none` when the fit raises.  The same
routine is called on the training prefix and on the full series in
`arima_con_datos_nasa`. -/
def FitSerie : Type := List ℚ → Orden → Option ℚ

/-- The 85% train split of `arima_con_datos_nasa`, line 133:
`split_point = int(len(temperatura) * 0.85)`, idealised to exact rational
arithmetic. -/
def split_point (n : ℕ) : ℕ := 85 * n / 100

/-- The fields of the dict returned by `arima_con_datos_nasa` that matter
for model selection: `configuracion` is `mejor_config`, `aic` is the
returned dict entry `aic` (the `mejor_aic` of the training-prefix loop),
and `modeloAic` is the AIC attribute of `modelo_ajustado`, the model
re-fitted on the full series that the dict returns under `modelo`. -/
structure ResultadoNasa where
  configuracion : Orden
  aic : ℚ
  modeloAic : ℚ
deriving DecidableEq, Repr

/-- `arima_con_datos_nasa` (arima_nasa_predicciones.py, lines 125-259),
restricted to its model-selection core: split off the 85% training prefix,
run the AIC selection loop over `configuraciones` on the prefix, then
re-fit a model with the selected order on the full series
(`modelo_completo = ARIMA(temperatura, order=mejor_config)`, line 202) and
return it together with the training-loop `mejor_aic`.  A raising re-fit
is caught by the enclosing `except` which returns `None`. -/
def arima_con_datos_nasa (fitS : FitSerie) (temperatura : List ℚ) (d_param : ℕ) :
    Option ResultadoNasa :=
  match seleccionar (fitS (temperatura.take (split_point temperatura.length)))
      (configuraciones d_param) with
  | none => none
  | some (cfg, aicTrain) =>
      match fitS temperatura cfg with
      | none => none
      | some aicFull => some ⟨cfg, aicTrain, aicFull⟩

/-- The future dates built by `arima_con_datos_nasa`, lines 210-215:
`pd.date_range(start=ultima_fecha + timedelta(days=1), periods=n, freq=D)`,
with calendar days idealised as integers (one unit = one day). -/
def fechas_futuras (ultima_fecha : ℤ) (dias_prediccion : ℕ) : List ℤ :=
  (List.range dias_prediccion).map fun i : ℕ => ultima_fecha + 1 + (i : ℤ)

/-- The prediction table `df_predicciones` of lines 218-222: future dates
paired with the forecast values returned by `forecast(steps=n)`. -/
def df_predicciones (ultima_fecha : ℤ) (preds : List ℚ) (dias_prediccion : ℕ) :
    List (ℤ × ℚ) :=
  (fechas_futuras ultima_fecha dias_prediccion).zip preds

/-- Kelvin to Celsius, arima_nasa_predicciones.py line 76 and
extraer_datos/extraer_simple_csv.py: `celsius = kelvin - 273.15`,
idealised over exact rationals. -/
def kelvin_a_celsius (k : ℚ) : ℚ := k - 273.15

/-- Celsius back to Kelvin, extraer_datos/extraer_simple_csv.py line 185:
`temp_k = float(temp_c) + 273.15`, idealised over exact rationals. -/
def celsius_a_kelvin (c : ℚ) : ℚ := c + 273.15

/-- Ascending (p, then d, then q) lexicographic order on candidate orders,
the enumeration order named by the spec for tie-breaking. -/
def ordenLex (x y : Orden) : Prop :=
  x.p < y.p ∨ (x.p = y.p ∧ (x.d < y.d ∨ (x.d = y.d ∧ x.q < y.q)))

instance (x y : Orden) : Decidable (ordenLex x y) := by
  unfold ordenLex
  infer_instance

/-- Order on best-so-far AIC values, where `none` stands for the initial
`float` infinity sentinel: every rational is below it. -/
def aicLE : Option ℚ → Option ℚ → Prop
  | _, none => True
  | none, some _ => False
  | some a, some b => a ≤ b

/-- Strict version of `aicLE`. -/
def aicLT : Option ℚ → Option ℚ → Prop
  | none, _ => False
  | some _, none => True
  | some a, some b => a < b

/-- Loop invariant: once a best order is recorded, the recorded best AIC
is exactly the AIC its fit produced; and no best AIC is recorded before a
best order is. -/
def Inv (fit : Fit) (st : SearchState) : Prop :=
  (st.mejorOrden = none → st.mejorAic = none) ∧
  ∀ o : Orden, st.mejorOrden = some o → ∃ a, st.mejorAic = some a ∧ fit o = some a

/-- The part of the loop state that the returned value depends on. -/
def nucleo (st : SearchState) : Option ℚ × Option Orden :=
  (st.mejorAic, st.mejorOrden)

/-- Concrete fit with a tie: orders (2,0,1) and (1,0,2) both get the
minimal AIC 10, every other order gets 20. -/
def fitEmpate : Fit := fun o =>
  if o = ⟨2, 0, 1⟩ then some 10 else if o = ⟨1, 0, 2⟩ then some 10 else some 20

/-- Concrete fit modelling the empty input series: statsmodels
`ARIMA([], order=(p,d,q)).fit()` raises for every candidate order, so
every per-candidate fit fails. -/
def fitSerieVacia : Fit := fun _ => none

/-- Concrete fit where every candidate fails, for the exhaustion case. -/
def fitFallaTodo : Fit := fun _ => none

/-- Concrete everywhere-successful fit with a unique minimum at (1,0,0). -/
def fitW1 : Fit := fun o =>
  if o = ⟨1, 0, 0⟩ then some 1 else some 5

/-- Concrete fit with a single failing candidate (0,0,0). -/
def fitW4 : Fit := fun o =>
  if o = ⟨0, 0, 0⟩ then none else some 7

/-- Concrete fit giving every candidate the same AIC 5. -/
def fitW3 : Fit := fun _ => some 5

/-- Concrete everywhere-successful fit with constant AIC 1. -/
def fitW9 : Fit := fun _ => some 1

/-- Concrete series-indexed fit: AIC 100 on the one-point training prefix
`[20]`, AIC 50 on any other series. -/
def fitW10 : FitSerie := fun s _ =>
  if s = [20] then some 100 else some 50

lemma aicLE_refl (x : Option ℚ) : aicLE x x := by
  cases x <;> simp [aicLE]

lemma aicLE_trans {x y z : Option ℚ} (h1 : aicLE x y) (h2 : aicLE y z) : aicLE x z := by
  cases x <;> cases y <;> cases z <;> simp_all [aicLE] <;> exact le_trans h1 h2

lemma aicLT_of_le_of_lt {x y z : Option ℚ} (h1 : aicLE x y) (h2 : aicLT y z) : aicLT x z := by
  cases x <;> cases y <;> cases z <;> simp_all [aicLE, aicLT] <;> exact lt_of_le_of_lt h1 h2

lemma aicLT_of_lt_of_le {x y z : Option ℚ} (h1 : aicLT x y) (h2 : aicLE y z) : aicLT x z := by
  cases x <;> cases y <;> cases z <;> simp_all [aicLE, aicLT] <;> exact lt_of_lt_of_le h1 h2

lemma not_aicLE_none_some (a : ℚ) : ¬ aicLE none (some a) := by
  simp [aicLE]

lemma not_aicLT_some_self (a : ℚ) : ¬ aicLT (some a) (some a) := by
  simp [aicLT]

lemma ltMejor_iff (a : ℚ) (x : Option ℚ) : ltMejor a x = true ↔ aicLT (some a) x := by
  cases x <;> simp [ltMejor, aicLT]

lemma aicLE_of_not_ltMejor {a : ℚ} {x : Option ℚ} (h : ¬ ltMejor a x = true) :
    aicLE x (some a) := by
  cases x with
  | none => exact absurd rfl h
  | some b => exact le_of_not_lt (by simpa [ltMejor] using h)

lemma probar_probadas (fit : Fit) (st : SearchState) (o : Orden) :
    (probarCandidato fit st o).probadas = st.probadas + 1 := by
  unfold probarCandidato
  cases fit o with
  | none => rfl
  | some a =>
    dsimp only
    split <;> rfl

lemma probar_mono (fit : Fit) (st : SearchState) (o : Orden) :
    aicLE (probarCandidato fit st o).mejorAic st.mejorAic := by
  unfold probarCandidato
  cases fit o with
  | none => exact aicLE_refl _
  | some a =>
    dsimp only
    by_cases hlt : ltMejor a st.mejorAic = true
    · rw [if_pos hlt]
      cases hb : st.mejorAic with
      | none => trivial
      | some b =>
        rw [hb] at hlt
        exact le_of_lt (by simpa [ltMejor] using hlt)
    · rw [if_neg hlt]
      exact aicLE_refl _

lemma probar_le_of_some (fit : Fit) (st : SearchState) {o : Orden} {a : ℚ}
    (hfit : fit o = some a) :
    aicLE (probarCandidato fit st o).mejorAic (some a) := by
  unfold probarCandidato
  rw [hfit]
  dsimp only
  by_cases hlt : ltMejor a st.mejorAic = true
  · rw [if_pos hlt]
    exact aicLE_refl (some a)
  · rw [if_neg hlt]
    exact aicLE_of_not_ltMejor hlt

lemma probar_cambio (fit : Fit) (st : SearchState) (o : Orden)
    (h : (probarCandidato fit st o).mejorOrden ≠ st.mejorOrden) :
    aicLT (probarCandidato fit st o).mejorAic st.mejorAic := by
  unfold probarCandidato at h ⊢
  cases hfit : fit o with
  | none =>
    rw [hfit] at h
    exact absurd rfl h
  | some a =>
    rw [hfit] at h
    dsimp only at h ⊢
    by_cases hlt : ltMejor a st.mejorAic = true
    · rw [if_pos hlt]
      exact (ltMejor_iff a st.mejorAic).mp hlt
    · rw [if_neg hlt] at h
      exact absurd rfl h

lemma probar_orden_cases (fit : Fit) (st : SearchState) (o : Orden) {o' : Orden}
    (h : (probarCandidato fit st o).mejorOrden = some o') :
    st.mejorOrden = some o' ∨ o = o' := by
  unfold probarCandidato at h
  cases hfit : fit o with
  | none =>
    rw [hfit] at h
    exact Or.inl h
  | some a =>
    rw [hfit] at h
    dsimp only at h
    by_cases hlt : ltMejor a st.mejorAic = true
    · rw [if_pos hlt] at h
      exact Or.inr (by simpa using h)
    · rw [if_neg hlt] at h
      exact Or.inl h

lemma inv_inicial (fit : Fit) : Inv fit estadoInicial :=
  ⟨fun _ => rfl, fun o h => nomatch h⟩

lemma inv_probar (fit : Fit) {st : SearchState} (h : Inv fit st) (o : Orden) :
    Inv fit (probarCandidato fit st o) := by
  unfold probarCandidato
  cases hfit : fit o with
  | none => exact h
  | some a =>
    dsimp only
    by_cases hlt : ltMejor a st.mejorAic = true
    · rw [if_pos hlt]
      refine ⟨(fun hnone => nomatch hnone), ?_⟩
      intro o' ho'
      obtain rfl : o = o' := by simpa using ho'
      exact ⟨a, rfl, hfit⟩
    · rw [if_neg hlt]
      exact h

lemma nucleo_probar_congr (fit : Fit) {st1 st2 : SearchState}
    (h : nucleo st1 = nucleo st2) (o : Orden) :
    nucleo (probarCandidato fit st1 o) = nucleo (probarCandidato fit st2 o) := by
  have h1 : st1.mejorAic = st2.mejorAic := congrArg Prod.fst h
  have h2 : st1.mejorOrden = st2.mejorOrden := congrArg Prod.snd h
  unfold probarCandidato
  cases fit o with
  | none => exact h
  | some a =>
    dsimp only
    rw [h1, h2]
    by_cases hlt : ltMejor a st2.mejorAic = true
    · rw [if_pos hlt, if_pos hlt]
      rfl
    · rw [if_neg hlt, if_neg hlt]
      rfl

lemma nucleo_probar_fallo (fit : Fit) (st : SearchState) {o : Orden}
    (hfit : fit o = none) : nucleo (probarCandidato fit st o) = nucleo st := by
  simp [probarCandidato, hfit, nucleo]

lemma buscarDesde_cons (fit : Fit) (o : Orden) (l : List Orden) (st : SearchState) :
    buscarDesde fit (o :: l) st = buscarDesde fit l (probarCandidato fit st o) :=
  rfl

lemma buscarDesde_mono (fit : Fit) (cands : List Orden) :
    ∀ st : SearchState, aicLE (buscarDesde fit cands st).mejorAic st.mejorAic := by
  induction cands with
  | nil => intro st; exact aicLE_refl _
  | cons o l ih =>
    intro st
    exact aicLE_trans (ih (probarCandidato fit st o)) (probar_mono fit st o)

lemma buscarDesde_min (fit : Fit) (cands : List Orden) :
    ∀ (st : SearchState) (o : Orden) (a : ℚ), o ∈ cands → fit o = some a →
      aicLE (buscarDesde fit cands st).mejorAic (some a) := by
  induction cands with
  | nil =>
    intro st o a h _
    exact absurd h (List.not_mem_nil o)
  | cons o' l ih =>
    intro st o a hmem hfit
    rcases List.mem_cons.mp hmem with heq | hmem'
    · subst heq
      exact aicLE_trans (buscarDesde_mono fit l _) (probar_le_of_some fit st hfit)
    · exact ih _ o a hmem' hfit

lemma buscarDesde_orden_mem (fit : Fit) (cands : List Orden) :
    ∀ (st : SearchState) (o : Orden), (buscarDesde fit cands st).mejorOrden = some o →
      st.mejorOrden = some o ∨ o ∈ cands := by
  induction cands with
  | nil => intro st o h; exact Or.inl h
  | cons o' l ih =>
    intro st o h
    rcases ih _ o h with hst | hl
    · rcases probar_orden_cases fit st o' hst with h1 | h2
      · exact Or.inl h1
      · subst h2
        exact Or.inr (List.mem_cons_self _ _)
    · exact Or.inr (List.mem_cons_of_mem _ hl)

lemma inv_buscarDesde (fit : Fit) (cands : List Orden) :
    ∀ st : SearchState, Inv fit st → Inv fit (buscarDesde fit cands st) := by
  induction cands with
  | nil => intro st h; exact h
  | cons o l ih => intro st h; exact ih _ (inv_probar fit h o)

lemma buscarDesde_cambio (fit : Fit) (cands : List Orden) :
    ∀ st : SearchState, (buscarDesde fit cands st).mejorOrden ≠ st.mejorOrden →
      aicLT (buscarDesde fit cands st).mejorAic st.mejorAic := by
  induction cands with
  | nil => intro st h; exact absurd rfl h
  | cons o l ih =>
    intro st h
    by_cases hstep : (buscarDesde fit l (probarCandidato fit st o)).mejorOrden
        = (probarCandidato fit st o).mejorOrden
    · have hchg : (probarCandidato fit st o).mejorOrden ≠ st.mejorOrden := by
        intro he
        exact h (by rw [buscarDesde_cons, hstep, he])
      exact aicLT_of_le_of_lt (buscarDesde_mono fit l _) (probar_cambio fit st o hchg)
    · exact aicLT_of_lt_of_le (ih _ hstep) (probar_mono fit st o)

lemma buscarDesde_probadas (fit : Fit) (cands : List Orden) :
    ∀ st : SearchState, (buscarDesde fit cands st).probadas = st.probadas + cands.length := by
  induction cands with
  | nil => intro st; rfl
  | cons o l ih =>
    intro st
    rw [buscarDesde_cons, ih, probar_probadas, List.length_cons]
    omega

lemma nucleo_buscarDesde_congr (fit : Fit) (cands : List Orden) :
    ∀ {st1 st2 : SearchState}, nucleo st1 = nucleo st2 →
      nucleo (buscarDesde fit cands st1) = nucleo (buscarDesde fit cands st2) := by
  induction cands with
  | nil => intro st1 st2 h; exact h
  | cons o l ih => intro st1 st2 h; exact ih (nucleo_probar_congr fit h o)

lemma nucleo_filtrado (fit : Fit) (cands : List Orden) :
    ∀ st : SearchState,
      nucleo (buscarDesde fit (cands.filter fun o => (fit o).isSome) st) =
        nucleo (buscarDesde fit cands st) := by
  induction cands with
  | nil => intro st; rfl
  | cons o l ih =>
    intro st
    cases hfit : fit o with
    | none =>
      have hf : (o :: l).filter (fun o => (fit o).isSome) =
          l.filter fun o => (fit o).isSome := by
        simp [List.filter_cons, hfit]
      rw [hf, buscarDesde_cons]
      calc nucleo (buscarDesde fit (l.filter fun o => (fit o).isSome) st)
          = nucleo (buscarDesde fit l st) := ih st
        _ = nucleo (buscarDesde fit l (probarCandidato fit st o)) :=
            nucleo_buscarDesde_congr fit l (nucleo_probar_fallo fit st hfit).symm
    | some a =>
      have hf : (o :: l).filter (fun o => (fit o).isSome) =
          o :: l.filter fun o => (fit o).isSome := by
        simp [List.filter_cons, hfit]
      rw [hf, buscarDesde_cons, buscarDesde_cons]
      exact ih (probarCandidato fit st o)

lemma resultado_congr {st1 st2 : SearchState} (h : nucleo st1 = nucleo st2) :
    resultado st1 = resultado st2 := by
  have h1 : st1.mejorAic = st2.mejorAic := congrArg Prod.fst h
  have h2 : st1.mejorOrden = st2.mejorOrden := congrArg Prod.snd h
  unfold resultado
  rw [h1, h2]

lemma resultado_eq_some {st : SearchState} {o : Orden} {a : ℚ}
    (h : resultado st = some (o, a)) :
    st.mejorOrden = some o ∧ st.mejorAic = some a := by
  unfold resultado at h
  cases ho : st.mejorOrden <;> cases ha : st.mejorAic <;> rw [ho, ha] at h <;> simp_all

lemma seleccionar_filtrado (fit : Fit) (cands : List Orden) :
    seleccionar fit (cands.filter fun o => (fit o).isSome) = seleccionar fit cands :=
  resultado_congr (nucleo_filtrado fit cands estadoInicial)

lemma seleccionar_fit_some (fit : Fit) (cands : List Orden) {o : Orden} {a : ℚ}
    (h : seleccionar fit cands = some (o, a)) : fit o = some a := by
  obtain ⟨ho, ha⟩ := resultado_eq_some h
  obtain ⟨a', ha', hfo⟩ :=
    (inv_buscarDesde fit cands estadoInicial (inv_inicial fit)).2 o ho
  have ha'' : (buscar fit cands).mejorAic = some a' := ha'
  rw [ha''] at ha
  obtain rfl : a' = a := by simpa using ha
  exact hfo

lemma seleccionar_todos_fallan {fit : Fit} {cands : List Orden}
    (h : ∀ o ∈ cands, fit o = none) : seleccionar fit cands = none := by
  have hf : cands.filter (fun o => (fit o).isSome) = [] := by
    rw [List.filter_eq_nil_iff]
    intro o ho
    rw [h o ho]
    simp
  have hsel := seleccionar_filtrado fit cands
  rw [hf] at hsel
  exact hsel.symm.trans rfl

lemma seleccionar_minimo (fit : Fit) (cands : List Orden)
    (hne : cands ≠ []) (hall : ∀ o ∈ cands, (fit o).isSome) :
    ∃ o a, seleccionar fit cands = some (o, a) ∧ o ∈ cands ∧ fit o = some a ∧
      ∀ o' ∈ cands, ∀ a', fit o' = some a' → a ≤ a' := by
  obtain ⟨o0, ho0⟩ := List.exists_mem_of_ne_nil cands hne
  obtain ⟨a0, ha0⟩ := Option.isSome_iff_exists.mp (hall o0 ho0)
  have hmin0 : aicLE (buscar fit cands).mejorAic (some a0) :=
    buscarDesde_min fit cands estadoInicial o0 a0 ho0 ha0
  have hinv : Inv fit (buscar fit cands) :=
    inv_buscarDesde fit cands estadoInicial (inv_inicial fit)
  cases horden : (buscar fit cands).mejorOrden with
  | none =>
    have haic := hinv.1 horden
    rw [haic] at hmin0
    exact absurd hmin0 (not_aicLE_none_some a0)
  | some o =>
    obtain ⟨a, ha, hfo⟩ := hinv.2 o horden
    have hsel : seleccionar fit cands = some (o, a) := by
      unfold seleccionar resultado
      rw [horden, ha]
    have hmem : o ∈ cands := by
      rcases buscarDesde_orden_mem fit cands estadoInicial o horden with h0 | h1
      · exact absurd h0 (by simp [estadoInicial])
      · exact h1
    refine ⟨o, a, hsel, hmem, hfo, ?_⟩
    intro o' ho' a' ha'
    have hmin : aicLE (buscar fit cands).mejorAic (some a') :=
      buscarDesde_min fit cands estadoInicial o' a' ho' ha'
    rw [ha] at hmin
    exact hmin

lemma grid_mem (mp md mq : ℕ) (o : Orden) :
    o ∈ grid mp md mq ↔ o.p ≤ mp ∧ o.d ≤ md ∧ o.q ≤ mq := by
  obtain ⟨p, d, q⟩ := o
  simp [grid, List.mem_flatMap, List.mem_map, List.mem_range, Nat.lt_succ_iff, Orden.mk.injEq]
  aesop

lemma grid_length (mp md mq : ℕ) :
    (grid mp md mq).length = (mp + 1) * (md + 1) * (mq + 1) := by
  simp [grid, List.length_flatMap, List.map_map, Function.comp_def, List.map_const',
    List.sum_replicate, smul_eq_mul]
  ring

lemma grid_nodup (mp md mq : ℕ) : (grid mp md mq).Nodup := by
  unfold grid
  refine List.nodup_flatMap.mpr ⟨?_, ?_⟩
  · intro p hp
    refine List.nodup_flatMap.mpr ⟨?_, ?_⟩
    · intro d hd
      refine (List.nodup_range _).map ?_
      intro q1 q2 h
      exact (Orden.mk.injEq ..).mp h |>.2.2
    · refine (List.pairwise_lt_range _).imp ?_
      intro d1 d2 hlt x hx1 hx2
      simp only [List.mem_map, List.mem_range] at hx1 hx2
      obtain ⟨q1, _, rfl⟩ := hx1
      obtain ⟨q2, _, h2⟩ := hx2
      exact absurd ((Orden.mk.injEq ..).mp h2).2.1 (Nat.ne_of_lt' hlt)
  · refine (List.pairwise_lt_range _).imp ?_
    intro p1 p2 hlt x hx1 hx2
    simp only [List.mem_flatMap, List.mem_map, List.mem_range] at hx1 hx2
    obtain ⟨d1, _, q1, _, rfl⟩ := hx1
    obtain ⟨d2, _, q2, _, h2⟩ := hx2
    exact absurd ((Orden.mk.injEq ..).mp h2).1 (Nat.ne_of_lt' hlt)

lemma grid_ne_nil (mp md mq : ℕ) : grid mp md mq ≠ [] :=
  List.ne_nil_of_mem ((grid_mem mp md mq ⟨0, 0, 0⟩).mpr
    ⟨Nat.zero_le _, Nat.zero_le _, Nat.zero_le _⟩)

lemma seleccionar_primer_empate (fit : Fit) (l1 l2 : List Orden) {o : Orden} {a : ℚ}
    (h : seleccionar fit (l1 ++ l2) = some (o, a))
    {o' : Orden} (h1 : o' ∈ l1) (h2 : fit o' = some a) : o ∈ l1 := by
  obtain ⟨ho, ha⟩ := resultado_eq_some h
  have hsplit : buscar fit (l1 ++ l2) =
      buscarDesde fit l2 (buscarDesde fit l1 estadoInicial) := by
    unfold buscar buscarDesde
    rw [List.foldl_append]
  by_contra hno
  have hst1 : (buscarDesde fit l1 estadoInicial).mejorOrden ≠ some o := by
    intro heq
    rcases buscarDesde_orden_mem fit l1 estadoInicial o heq with h0 | hmem
    · exact absurd h0 (by simp [estadoInicial])
    · exact hno hmem
  have hfin : (buscarDesde fit l2 (buscarDesde fit l1 estadoInicial)).mejorOrden = some o := by
    rw [← hsplit]
    exact ho
  have hlt : aicLT (buscarDesde fit l2 (buscarDesde fit l1 estadoInicial)).mejorAic
      (buscarDesde fit l1 estadoInicial).mejorAic := by
    refine buscarDesde_cambio fit l2 _ ?_
    rw [hfin]
    exact fun he => hst1 he.symm
  have hle : aicLE (buscarDesde fit l1 estadoInicial).mejorAic (some a) :=
    buscarDesde_min fit l1 estadoInicial o' a h1 h2
  have hfin_aic : (buscarDesde fit l2 (buscarDesde fit l1 estadoInicial)).mejorAic = some a := by
    rw [← hsplit]
    exact ha
  rw [hfin_aic] at hlt
  exact not_aicLT_some_self a (aicLT_of_lt_of_le hlt hle)

lemma fechas_length (u : ℤ) (n : ℕ) : (fechas_futuras u n).length = n := by
  simp only [fechas_futuras, List.length_map, List.length_range]

lemma fechas_getElem (u : ℤ) (n i : ℕ) (h : i < n) :
    (fechas_futuras u n)[i]? = some (u + 1 + i) := by
  simp only [fechas_futuras, List.getElem?_map, List.getElem?_range h, Option.map_some']

lemma fechas_head (u : ℤ) (n : ℕ) (h : 0 < n) :
    (fechas_futuras u n).head? = some (u + 1) := by
  rw [List.head?_eq_getElem?]
  have h0 := fechas_getElem u n 0 h
  simpa using h0

lemma fechas_chain (u : ℤ) (n : ℕ) :
    List.Chain' (fun a b => b = a + 1) (fechas_futuras u n) := by
  rw [List.chain'_iff_get]
  intro i hi
  simp only [fechas_futuras, List.get_eq_getElem, List.getElem_map, List.getElem_range]
  push_cast
  ring

/-- C1: for every fit routine under which every candidate of the
respective candidate set fits successfully, each of the three selection
loops (`encontrar_mejor_arima`, `arima_con_statsmodels`, and the
`configuraciones` loop of `arima_con_datos_nasa`) returns a candidate of
its set whose AIC is less than or equal to the AIC of every other
successfully fitted candidate. -/
theorem mejor_aic_es_minimo (fit : Fit) (mp md mq d_param : ℕ)
    (hg : ∀ o ∈ grid mp md mq, (fit o).isSome)
    (hs : ∀ o ∈ configuraciones_simple, (fit o).isSome)
    (hn : ∀ o ∈ configuraciones d_param, (fit o).isSome) :
    (∃ o a, encontrar_mejor_arima fit mp md mq = some (o, a) ∧ o ∈ grid mp md mq ∧
      fit o = some a ∧ ∀ o' ∈ grid mp md mq, ∀ a', fit o' = some a' → a ≤ a') ∧
    (∃ o a, arima_con_statsmodels fit = some (o, a) ∧ o ∈ configuraciones_simple ∧
      fit o = some a ∧ ∀ o' ∈ configuraciones_simple, ∀ a', fit o' = some a' → a ≤ a') ∧
    (∃ o a, seleccion_nasa fit d_param = some (o, a) ∧ o ∈ configuraciones d_param ∧
      fit o = some a ∧ ∀ o' ∈ configuraciones d_param, ∀ a', fit o' = some a' → a ≤ a') :=
  ⟨seleccionar_minimo fit _ (grid_ne_nil mp md mq) hg,
   seleccionar_minimo fit _ (List.cons_ne_nil _ _) hs,
   seleccionar_minimo fit _ (List.cons_ne_nil _ _) hn⟩

/-- Witness for C1 at a concrete everywhere-successful fit. -/
theorem mejor_aic_es_minimo_witness :
    (∃ o a, encontrar_mejor_arima fitW1 1 0 1 = some (o, a) ∧ o ∈ grid 1 0 1 ∧
      fitW1 o = some a ∧ ∀ o' ∈ grid 1 0 1, ∀ a', fitW1 o' = some a' → a ≤ a') ∧
    (∃ o a, arima_con_statsmodels fitW1 = some (o, a) ∧ o ∈ configuraciones_simple ∧
      fitW1 o = some a ∧ ∀ o' ∈ configuraciones_simple, ∀ a', fitW1 o' = some a' → a ≤ a') ∧
    (∃ o a, seleccion_nasa fitW1 0 = some (o, a) ∧ o ∈ configuraciones 0 ∧
      fitW1 o = some a ∧ ∀ o' ∈ configuraciones 0, ∀ a', fitW1 o' = some a' → a ≤ a') :=
  mejor_aic_es_minimo fitW1 1 0 1 0 (by decide) (by decide) (by decide)

/-- C2: if every candidate of the set fails to fit, each selector returns
its distinct no-viable-model signal (`(None, None, None)` respectively
`None`, both modelled by `none`), never a fabricated result with a
sentinel AIC. -/
theorem sin_modelo_viable (fit : Fit) (mp md mq d_param : ℕ)
    (hg : ∀ o ∈ grid mp md mq, fit o = none)
    (hs : ∀ o ∈ configuraciones_simple, fit o = none)
    (hn : ∀ o ∈ configuraciones d_param, fit o = none) :
    encontrar_mejor_arima fit mp md mq = none ∧
    arima_con_statsmodels fit = none ∧
    seleccion_nasa fit d_param = none :=
  ⟨seleccionar_todos_fallan hg, seleccionar_todos_fallan hs, seleccionar_todos_fallan hn⟩

/-- Witness for C2 at the fit routine that fails on every candidate. -/
theorem sin_modelo_viable_witness :
    encontrar_mejor_arima fitFallaTodo 1 1 1 = none ∧
    arima_con_statsmodels fitFallaTodo = none ∧
    seleccion_nasa fitFallaTodo 0 = none :=
  sin_modelo_viable fitFallaTodo 1 1 1 0 (by decide) (by decide) (by decide)

/-- C3 counterexample: the claim says that on exact AIC ties the
first candidate in ascending (p, then d, then q) order is returned; but in
`arima_con_datos_nasa` the enumeration is the hard-coded `configuraciones`
list, which is not in that order.  With orders (2,0,1) and (1,0,2) tied at
the minimal AIC 10 the selector returns (2,0,1), although (1,0,2) is
earlier in ascending (p,d,q) order. -/
theorem empate_no_lexicografico :
    seleccion_nasa fitEmpate 0 = some (⟨2, 0, 1⟩, 10) ∧
    (⟨1, 0, 2⟩ : Orden) ∈ configuraciones 0 ∧
    fitEmpate ⟨1, 0, 2⟩ = some 10 ∧
    (∀ o ∈ configuraciones 0, ∀ a, fitEmpate o = some a → (10 : ℚ) ≤ a) ∧
    ordenLex ⟨1, 0, 2⟩ ⟨2, 0, 1⟩ ∧ ¬ ordenLex ⟨2, 0, 1⟩ ⟨1, 0, 2⟩ :=
  ⟨by decide, by decide, by decide, by decide, by decide, by decide⟩

/-- C3 (amended): on exact AIC ties the selector returns the candidate
first encountered in the enumeration order the code actually iterates
(the ascending nested (p,d,q) loops for `encontrar_mejor_arima`, the
literal `configuraciones` order for `arima_con_datos_nasa`), reproducibly:
if any candidate of a prefix of the enumeration attains the winning AIC,
the winner belongs to that prefix. -/
theorem empate_gana_primero (fit : Fit) (l1 l2 : List Orden) (o o' : Orden) (a : ℚ)
    (h : seleccionar fit (l1 ++ l2) = some (o, a))
    (h1 : o' ∈ l1) (h2 : fit o' = some a) : o ∈ l1 :=
  seleccionar_primer_empate fit l1 l2 h h1 h2

/-- Witness for C3 (amended) at a concrete all-tied fit. -/
theorem empate_gana_primero_witness :
    seleccionar fitW3 ([⟨1, 0, 0⟩] ++ [⟨0, 0, 0⟩]) = some (⟨1, 0, 0⟩, 5) ∧
    (⟨1, 0, 0⟩ : Orden) ∈ [(⟨1, 0, 0⟩ : Orden)] :=
  ⟨by decide,
   empate_gana_primero fitW3 [⟨1, 0, 0⟩] [⟨0, 0, 0⟩] ⟨1, 0, 0⟩ ⟨1, 0, 0⟩ 5 (by decide)
     (by decide) (by decide)⟩

/-- C4: a per-candidate fit failure is never fatal: the selection over a
candidate list equals the selection over the sublist of successfully
fitting candidates (failing candidates are excluded, all remaining ones
still evaluated), and a returned winner always fitted successfully. -/
theorem fallo_candidato_no_fatal (fit : Fit) (cands : List Orden) :
    seleccionar fit cands = seleccionar fit (cands.filter fun o => (fit o).isSome) ∧
    ∀ o a, seleccionar fit cands = some (o, a) → fit o = some a :=
  ⟨(seleccionar_filtrado fit cands).symm,
   fun _ _ h => seleccionar_fit_some fit cands h⟩

/-- Witness for C4 at a fit that fails exactly on candidate (0,0,0). -/
theorem fallo_candidato_no_fatal_witness :
    seleccionar fitW4 (grid 1 0 0) =
      seleccionar fitW4 ((grid 1 0 0).filter fun o => (fitW4 o).isSome) ∧
    fitW4 ⟨1, 0, 0⟩ = some 7 :=
  ⟨(fallo_candidato_no_fatal fitW4 (grid 1 0 0)).1,
   (fallo_candidato_no_fatal fitW4 (grid 1 0 0)).2 ⟨1, 0, 0⟩ 7 (by decide)⟩

/-- C5 counterexample: `encontrar_mejor_arima` has no precondition check.
For the empty input series every per-candidate fit raises
(`fitSerieVacia`), yet with the default maxima all 48 combinations are
still attempted (`combinaciones_probadas` reaches 48, so fitting is
attempted), and the function returns `none` — exactly the same value as
the all-candidates-failed exhaustion outcome (`fitFallaTodo`) — rather
than a distinct precondition-violation report issued before fitting. -/
theorem serie_vacia_no_precondicion :
    (buscar fitSerieVacia (grid 3 2 3)).probadas = 48 ∧
    encontrar_mejor_arima fitSerieVacia 3 2 3 = none ∧
    encontrar_mejor_arima fitSerieVacia 3 2 3 = encontrar_mejor_arima fitFallaTodo 3 2 3 :=
  ⟨by decide, by decide, by decide⟩

/-- C5 (amended): the selector performs no precondition validation: on an
input for which every candidate fit fails (such as the empty series), all
(max_p+1)(max_d+1)(max_q+1) fits are still attempted and the function
returns the same `(None, None, None)` signal as the no-viable-model
exhaustion outcome; no distinct precondition-violation report exists, and
an empty candidate set cannot arise from the maxima-based grid. -/
theorem sin_chequeo_precondicion (fit : Fit) (mp md mq : ℕ)
    (h : ∀ o ∈ grid mp md mq, fit o = none) :
    encontrar_mejor_arima fit mp md mq = none ∧
    (buscar fit (grid mp md mq)).probadas = (mp + 1) * (md + 1) * (mq + 1) := by
  refine ⟨seleccionar_todos_fallan h, ?_⟩
  rw [show buscar fit (grid mp md mq) = buscarDesde fit (grid mp md mq) estadoInicial from rfl,
    buscarDesde_probadas, grid_length]
  simp [estadoInicial]

/-- Witness for C5 (amended) at the empty-series fit. -/
theorem sin_chequeo_precondicion_witness :
    encontrar_mejor_arima fitSerieVacia 1 1 1 = none ∧
    (buscar fitSerieVacia (grid 1 1 1)).probadas = (1 + 1) * (1 + 1) * (1 + 1) :=
  sin_chequeo_precondicion fitSerieVacia 1 1 1 (by decide)

/-- C6: for a positive horizon N, given the library contract that
`forecast(steps=N)` returns N values, the prediction table built by
`arima_con_datos_nasa` has exactly N rows, its date column is
`fechas_futuras`, the i-th future date is the last observed date plus
1 + i (consecutive calendar days, no gaps), the first future date is the
day immediately after the last observed one, and the dates increase in
steps of exactly one day. -/
theorem contrato_horizonte (ultima : ℤ) (n : ℕ) (preds : List ℚ)
    (hn : 0 < n) (hlen : preds.length = n) :
    (df_predicciones ultima preds n).length = n ∧
    (df_predicciones ultima preds n).map Prod.fst = fechas_futuras ultima n ∧
    (∀ i : ℕ, i < n → (fechas_futuras ultima n)[i]? = some (ultima + 1 + i)) ∧
    (fechas_futuras ultima n).head? = some (ultima + 1) ∧
    List.Chain' (fun a b => b = a + 1) (fechas_futuras ultima n) := by
  refine ⟨?_, ?_, ?_, fechas_head ultima n hn, fechas_chain ultima n⟩
  · unfold df_predicciones
    rw [List.length_zip, fechas_length, hlen, min_self]
  · unfold df_predicciones
    exact List.map_fst_zip _ _ (by rw [fechas_length, hlen])
  · intro i hi
    exact fechas_getElem ultima n i hi

/-- Witness for C6 at horizon 3 with three forecast values. -/
theorem contrato_horizonte_witness :
    (df_predicciones 0 [1, 2, 3] 3).length = 3 ∧
    (df_predicciones 0 [1, 2, 3] 3).map Prod.fst = fechas_futuras 0 3 ∧
    (∀ i : ℕ, i < 3 → (fechas_futuras 0 3)[i]? = some (0 + 1 + i)) ∧
    (fechas_futuras 0 3).head? = some (0 + 1) ∧
    List.Chain' (fun a b => b = a + 1) (fechas_futuras 0 3) :=
  contrato_horizonte 0 3 [1, 2, 3] (by decide) (by decide)

/-- C7: from maxima (max_p, max_d, max_q) the search enumerates exactly
the inclusive Cartesian grid: the candidate list has
(max_p+1)(max_d+1)(max_q+1) entries, membership is exactly the inclusive
bounds 0..max_p × 0..max_d × 0..max_q, every member occurs exactly once,
and the loop attempts exactly one fit per entry
(`combinaciones_probadas` ends at the grid size for every fit routine). -/
theorem grid_cartesiano_completo (mp md mq : ℕ) :
    (grid mp md mq).length = (mp + 1) * (md + 1) * (mq + 1) ∧
    (∀ o : Orden, o ∈ grid mp md mq ↔ o.p ≤ mp ∧ o.d ≤ md ∧ o.q ≤ mq) ∧
    (∀ o ∈ grid mp md mq, (grid mp md mq).count o = 1) ∧
    ∀ fit : Fit, (buscar fit (grid mp md mq)).probadas =
      (mp + 1) * (md + 1) * (mq + 1) := by
  refine ⟨grid_length mp md mq, grid_mem mp md mq, ?_, ?_⟩
  · intro o ho
    exact List.count_eq_one_of_mem (grid_nodup mp md mq) ho
  · intro fit
    rw [show buscar fit (grid mp md mq) = buscarDesde fit (grid mp md mq) estadoInicial
        from rfl,
      buscarDesde_probadas, grid_length]
    simp [estadoInicial]

/-- Witness for C7 at maxima (1, 0, 1). -/
theorem grid_cartesiano_completo_witness :
    (grid 1 0 1).length = (1 + 1) * (0 + 1) * (1 + 1) ∧
    ((⟨1, 0, 1⟩ : Orden) ∈ grid 1 0 1 ↔ 1 ≤ 1 ∧ 0 ≤ 0 ∧ 1 ≤ 1) ∧
    (grid 1 0 1).count ⟨1, 0, 1⟩ = 1 ∧
    (buscar fitW9 (grid 1 0 1)).probadas = (1 + 1) * (0 + 1) * (1 + 1) :=
  ⟨(grid_cartesiano_completo 1 0 1).1,
   (grid_cartesiano_completo 1 0 1).2.1 ⟨1, 0, 1⟩,
   (grid_cartesiano_completo 1 0 1).2.2.1 ⟨1, 0, 1⟩ (by decide),
   (grid_cartesiano_completo 1 0 1).2.2.2 fitW9⟩

/-- C8: the Kelvin to Celsius conversion computes exactly x - 273.15, and
the round trip Celsius → Kelvin → Celsius returns the original value
exactly (over the rational idealisation of the float values, hence within
any floating-point tolerance). -/
theorem conversion_kelvin_celsius (x : ℚ) :
    kelvin_a_celsius x = x - 273.15 ∧
    kelvin_a_celsius (celsius_a_kelvin x) = x := by
  refine ⟨rfl, ?_⟩
  unfold kelvin_a_celsius celsius_a_kelvin
  ring

/-- C9: two runs of the same search on the same candidate sets agree on
the selected order and its AIC, under the hypothesis that the fitting
routine is deterministic (both runs see the same fit outcomes). -/
theorem busqueda_dos_veces_identica (fit1 fit2 : Fit) (mp md mq d_param : ℕ)
    (h : ∀ o : Orden, fit1 o = fit2 o) :
    encontrar_mejor_arima fit1 mp md mq = encontrar_mejor_arima fit2 mp md mq ∧
    arima_con_statsmodels fit1 = arima_con_statsmodels fit2 ∧
    seleccion_nasa fit1 d_param = seleccion_nasa fit2 d_param := by
  have hf : fit1 = fit2 := funext h
  subst hf
  exact ⟨rfl, rfl, rfl⟩

/-- Witness for C9 at a concrete deterministic fit. -/
theorem busqueda_dos_veces_identica_witness :
    encontrar_mejor_arima fitW9 1 1 1 = encontrar_mejor_arima fitW9 1 1 1 ∧
    arima_con_statsmodels fitW9 = arima_con_statsmodels fitW9 ∧
    seleccion_nasa fitW9 0 = seleccion_nasa fitW9 0 :=
  busqueda_dos_veces_identica fitW9 fitW9 1 1 1 0 (fun _ => rfl)

/-- C10: whenever `arima_con_datos_nasa` returns a result, the `aic`
field it reports is the AIC of the fit of the selected order on the 85%
training prefix, while the model it returns is fitted on the full series
(its AIC attribute is the full-series fit); hence whenever the
full-series fit of the selected order has a different AIC, the reported
AIC is not the AIC of the returned fitted model. -/
theorem aic_reportado_es_de_entrenamiento (fitS : FitSerie) (temperatura : List ℚ)
    (d_param : ℕ) (r : ResultadoNasa)
    (h : arima_con_datos_nasa fitS temperatura d_param = some r) :
    fitS (temperatura.take (split_point temperatura.length)) r.configuracion =
      some r.aic ∧
    fitS temperatura r.configuracion = some r.modeloAic ∧
    (some r.aic ≠ fitS temperatura r.configuracion → r.aic ≠ r.modeloAic) := by
  unfold arima_con_datos_nasa at h
  cases hsel : seleccionar (fitS (temperatura.take (split_point temperatura.length)))
      (configuraciones d_param) with
  | none =>
    rw [hsel] at h
    cases h
  | some pa =>
    obtain ⟨cfg, aicTrain⟩ := pa
    rw [hsel] at h
    dsimp only at h
    cases hfull : fitS temperatura cfg with
    | none =>
      rw [hfull] at h
      cases h
    | some aicFull =>
      rw [hfull] at h
      dsimp only at h
      obtain rfl : (⟨cfg, aicTrain, aicFull⟩ : ResultadoNasa) = r := by simpa using h
      refine ⟨seleccionar_fit_some _ _ hsel, hfull, ?_⟩
      intro hne heq
      rw [heq] at hne
      exact hne hfull.symm

/-- Witness for C10: with `fitW10` on the series [20, 21], the training
prefix is [20]; the selected order reports training AIC 100, while the
returned full-series model has AIC 50. -/
theorem aic_reportado_es_de_entrenamiento_witness :
    fitW10 (([20, 21] : List ℚ).take (split_point 2)) (⟨1, 0, 1⟩ : Orden) = some 100 ∧
    fitW10 [20, 21] ⟨1, 0, 1⟩ = some 50 ∧
    (some (100 : ℚ) ≠ fitW10 [20, 21] ⟨1, 0, 1⟩ → (100 : ℚ) ≠ 50) ∧
    (100 : ℚ) ≠ 50 :=
  ⟨(aic_reportado_es_de_entrenamiento fitW10 [20, 21] 0 ⟨⟨1, 0, 1⟩, 100, 50⟩ (by decide)).1,
   (aic_reportado_es_de_entrenamiento fitW10 [20, 21] 0 ⟨⟨1, 0, 1⟩, 100, 50⟩ (by decide)).2.1,
   (aic_reportado_es_de_entrenamiento fitW10 [20, 21] 0 ⟨⟨1, 0, 1⟩, 100, 50⟩ (by decide)).2.2,
   by decide⟩

end Hackaton
